import Mathlib

set_option maxRecDepth 100000

namespace EventHub

/-- JS truthiness for an optional string value: `undefined` and `""` are falsy. -/
def truthy : Option String → Bool
  | none => false
  | some s => !(s == "")

/-- JS `a || d` where `a` is an optional string and `d` a string: returns `d`
when `a` is falsy (absent or empty). -/
def jsOrS (a : Option String) (d : String) : String :=
  match a with
  | some s => if s == "" then d else s
  | none => d

/-- JS `a || b` on two optional strings (used before a further fallback). -/
def jsOr (a b : Option String) : Option String :=
  if truthy a then a else b

structure Organizer where
  name : String
  type : String
  verified : Bool
  deriving Repr, DecidableEq

structure Source where
  name : String
  deriving Repr, DecidableEq

structure Registration where
  «open» : Bool
  deriving Repr, DecidableEq

structure CanonicalEvent where
  id : Option String
  title : String
  description : String
  start : String
  «end» : String
  venue : String
  organizer : Organizer
  source : Source
  tags : List String
  external : Bool
  registration : Registration
  deriving Repr, DecidableEq

structure NormalizeInput where
  id : Option String := none
  title : Option String := none
  description : Option String := none
  start : Option String := none
  «end» : Option String := none
  venue : Option String := none
  organizerName : Option String := none
  organizerType : Option String := none
  sourceName : Option String := none
  external : Option Bool := none
  deriving Repr, DecidableEq

/-- The normalizer from src/frontend/server.js. The destructuring default
`external=true` fires only when the field is absent (`none`); the `x || d`
defaults fire on any falsy value (absent or empty string). -/
def normalizeEvent (f : NormalizeInput) : CanonicalEvent :=
  { id := f.id
    title := jsOrS f.title ""
    description := jsOrS f.description ""
    start := jsOrS f.start ""
    «end» := jsOrS f.«end» ""
    venue := jsOrS f.venue ""
    organizer :=
      { name := jsOrS f.organizerName (jsOrS f.sourceName "Unknown")
        type := jsOrS f.organizerType "other"
        verified := f.organizerType == some "government" || f.organizerType == some "company" }
    source := { name := jsOrS f.sourceName "external" }
    tags := []
    external := f.external.getD true
    registration := { «open» := true } }

/-- JS template-string interpolation of a possibly-absent string value:
an `undefined` field interpolates as the text "undefined". -/
def interp (o : Option String) : String := o.getD "undefined"

/-! Raw Eventbrite search-result records, as destructured by the handler. -/

structure EBText where
  text : Option String
  deriving Repr, DecidableEq

structure EBTime where
  utc : Option String
  «local» : Option String
  deriving Repr, DecidableEq

structure EBVenueAddress where
  localized_address_display : Option String
  deriving Repr, DecidableEq

structure EBVenue where
  address : Option EBVenueAddress
  name : Option String
  deriving Repr, DecidableEq

structure EBOrganizer where
  name : Option String
  deriving Repr, DecidableEq

structure EBRecord where
  id : Option String := none
  name : Option EBText := none
  description : Option EBText := none
  start : Option EBTime := none
  «end» : Option EBTime := none
  venue : Option EBVenue := none
  organizer : Option EBOrganizer := none
  deriving Repr, DecidableEq

/-- The Eventbrite adapter: the argument `/api/eventbrite` builds for
`normalizeEvent` from one raw record `ev`. -/
def ebAdapt (ev : EBRecord) : NormalizeInput :=
  { id := some ("eventbrite_" ++ interp ev.id)
    title := ev.name.bind EBText.text
    description := ev.description.bind EBText.text
    start := jsOr (ev.start.bind EBTime.utc) (ev.start.bind fun t => t.«local»)
    «end» := jsOr (ev.«end».bind EBTime.utc) (ev.«end».bind fun t => t.«local»)
    venue := jsOr (ev.venue.bind fun v => v.address.bind EBVenueAddress.localized_address_display)
                  (ev.venue.bind EBVenue.name)
    organizerName := ev.organizer.bind EBOrganizer.name
    organizerType := some "company"
    sourceName := some "Eventbrite"
    external := some true }

def ebEvent (ev : EBRecord) : CanonicalEvent := normalizeEvent (ebAdapt ev)

/-! Raw Google Calendar items, as destructured by the handler. -/

structure GTime where
  dateTime : Option String
  date : Option String
  deriving Repr, DecidableEq

structure GOrganizer where
  displayName : Option String
  email : Option String
  deriving Repr, DecidableEq

structure GCalItem where
  id : Option String := none
  summary : Option String := none
  description : Option String := none
  start : Option GTime := none
  «end» : Option GTime := none
  location : Option String := none
  organizer : Option GOrganizer := none
  deriving Repr, DecidableEq

/-- The Google Calendar adapter: the argument `/api/google-calendar` builds
for `normalizeEvent` from one raw item `it`. -/
def gcalAdapt (it : GCalItem) : NormalizeInput :=
  { id := some ("gcal_" ++ interp it.id)
    title := it.summary
    description := some (jsOrS it.description "")
    start := it.start.bind fun t => jsOr t.dateTime t.date
    «end» := it.«end».bind fun t => jsOr t.dateTime t.date
    venue := some (jsOrS it.location "")
    organizerName := jsOr (it.organizer.bind GOrganizer.displayName)
                          (jsOr (it.organizer.bind GOrganizer.email) (some "Google Calendar"))
    organizerType := some "other"
    sourceName := some "Google Calendar"
    external := some true }

def gcalEvent (it : GCalItem) : CanonicalEvent := normalizeEvent (gcalAdapt it)

/-! Parsed ICS components, as consumed by the handler loop. The `start` and
`end` fields here stand for the ISO-8601 serialization the code produces via
`toISOString()` when the date is present (`Date` objects are always truthy). -/

structure ICSComponent where
  type : String
  uid : Option String := none
  summary : Option String := none
  description : Option String := none
  location : Option String := none
  organizer : Option String := none
  start : Option String := none
  «end» : Option String := none
  deriving Repr, DecidableEq

/-- The ICS adapter: the argument `/api/fetch-ics` builds for
`normalizeEvent` from one parsed component `ev` of type VEVENT. -/
def icsAdapt (ev : ICSComponent) : NormalizeInput :=
  { id := some ("ics_" ++ (jsOrS ev.uid (jsOrS ev.summary "")).take 40)
    title := some (jsOrS ev.summary "")
    description := some (jsOrS ev.description "")
    start := some (ev.start.getD "")
    «end» := some (ev.«end».getD "")
    venue := some (jsOrS ev.location "")
    organizerName := some (jsOrS ev.organizer "")
    organizerType := some "other"
    sourceName := some "ICS"
    external := some true }

def icsEvent (ev : ICSComponent) : CanonicalEvent := normalizeEvent (icsAdapt ev)

/-- The `/api/fetch-ics` loop over the values of the parsed object: each
value may be nullish (the `ev &&` guard), and only components whose `type`
is exactly "VEVENT" are pushed. -/
def icsEvents : List (Option ICSComponent) → List CanonicalEvent
  | [] => []
  | none :: rest => icsEvents rest
  | some ev :: rest =>
      if ev.type == "VEVENT" then icsEvent ev :: icsEvents rest
      else icsEvents rest

/-! HTTP handler shells. The outbound fetch (and ICS parsing) is the opaque
external collaborator; a handler is modelled as a function of the
environment-derived configuration, the relevant query parameters and the
outcome the collaborator would deliver, returning the HTTP response paired
with the number of outbound calls the handler performed. -/

inductive Upstream (α : Type) where
  | ok (payload : α)
  | fail (msg : String)

inductive JsonBody where
  | errObj (error : String)
  | errDetails (error : String) (details : String)
  | eventsObj (events : List CanonicalEvent)
  deriving Repr, DecidableEq

structure HttpResponse where
  status : Nat
  body : JsonBody
  deriving Repr, DecidableEq

structure EBSearchJson where
  events : Option (List EBRecord)

/-- The `/api/eventbrite` handler. `EVENTBRITE_TOKEN` is
`process.env.EVENTBRITE_TOKEN || ''`, and the handler refuses with 500
before fetching when that string is falsy. -/
def eventbriteHandler (tokenEnv : Option String) (upstream : Upstream EBSearchJson) :
    HttpResponse × Nat :=
  let tok := jsOrS tokenEnv ""
  if tok == "" then ({ status := 500, body := .errObj "Missing EVENTBRITE_TOKEN env var" }, 0)
  else
    match upstream with
    | .ok json => ({ status := 200, body := .eventsObj ((json.events.getD []).map ebEvent) }, 1)
    | .fail msg => ({ status := 500, body := .errDetails "Eventbrite fetch failed" msg }, 1)

structure GCalListJson where
  items : Option (List GCalItem)

/-- The `/api/google-calendar` handler: the `calendarId` query parameter is
checked first (400), then `GOOGLE_API_KEY = process.env.GOOGLE_API_KEY || ''`
(500), and only then is the single outbound fetch made. -/
def googleCalendarHandler (apiKeyEnv : Option String) (calendarId : Option String)
    (upstream : Upstream GCalListJson) : HttpResponse × Nat :=
  if !truthy calendarId then ({ status := 400, body := .errObj "calendarId required" }, 0)
  else if jsOrS apiKeyEnv "" == "" then
    ({ status := 500, body := .errObj "Missing GOOGLE_API_KEY env var" }, 0)
  else
    match upstream with
    | .ok json => ({ status := 200, body := .eventsObj ((json.items.getD []).map gcalEvent) }, 1)
    | .fail msg => ({ status := 500, body := .errDetails "Google Calendar fetch failed" msg }, 1)

/-- The `/api/fetch-ics` handler: the `url` query parameter is checked
first (400); the fetch-and-parse is the opaque collaborator whose outcome is
either the parsed object (its list of values) or a thrown error. -/
def fetchIcsHandler (url : Option String) (upstream : Upstream (List (Option ICSComponent))) :
    HttpResponse × Nat :=
  if !truthy url then ({ status := 400, body := .errObj "url query param required" }, 0)
  else
    match upstream with
    | .ok parsed => ({ status := 200, body := .eventsObj (icsEvents parsed) }, 1)
    | .fail msg => ({ status := 500, body := .errDetails "Failed to fetch/parse ICS" msg }, 1)

/-! Helper lemmas about the JS-style fallback operators and about prefixed
string identifiers. -/

theorem jsOrS_of_falsy {a : Option String} (h : truthy a = false) (d : String) :
    jsOrS a d = d := by
  cases a with
  | none => rfl
  | some s =>
    simp [truthy] at h
    simp [jsOrS, h]

theorem jsOrS_some_ne {s : String} (h : s ≠ "") (d : String) : jsOrS (some s) d = s := by
  simp [jsOrS, h]

theorem jsOrS_some_empty_default (s : String) : jsOrS (some s) "" = s := by
  by_cases h : s = ""
  · simp [jsOrS, h]
  · simp [jsOrS, h]

theorem jsOr_some_ne {s : String} (h : s ≠ "") (b : Option String) :
    jsOr (some s) b = some s := by
  simp [jsOr, truthy, h]

theorem jsOr_none (b : Option String) : jsOr none b = b := rfl

theorem append_head_ne {s t : String} {c d : Char} {p q : List Char}
    (hs : s.data = c :: p) (ht : t.data = d :: q) (hcd : c ≠ d) (a b : String) :
    s ++ a ≠ t ++ b := by
  intro h
  have hd := congrArg String.data h
  rw [String.data_append, String.data_append, hs, ht, List.cons_append,
    List.cons_append] at hd
  exact hcd (List.head_eq_of_cons_eq hd)

theorem append_left_ne_empty {s : String} {c : Char} {p : List Char}
    (hs : s.data = c :: p) (a : String) : s ++ a ≠ "" := by
  intro h
  have hd := congrArg String.data h
  rw [String.data_append, hs, List.cons_append] at hd
  exact List.cons_ne_nil _ _ hd

/-- C1: for every input record with any subset of the optional fields
(including none of them), `normalizeEvent` returns a well-formed Canonical
Event (totality is intrinsic: it is a Lean function), where `title`,
`description`, `start`, `end` and `venue` default to `""` when falsy/absent,
`organizer.type` defaults to "other", `source.name` defaults to "external",
`tags` is always `[]`, `registration.open` is always `true`, and `external`
defaults to `true` when omitted. -/
theorem normalize_total_defaults (f : NormalizeInput) :
    (truthy f.title = false → (normalizeEvent f).title = "")
    ∧ (truthy f.description = false → (normalizeEvent f).description = "")
    ∧ (truthy f.start = false → (normalizeEvent f).start = "")
    ∧ (truthy f.«end» = false → (normalizeEvent f).«end» = "")
    ∧ (truthy f.venue = false → (normalizeEvent f).venue = "")
    ∧ (truthy f.organizerType = false → (normalizeEvent f).organizer.type = "other")
    ∧ (truthy f.sourceName = false → (normalizeEvent f).source.name = "external")
    ∧ (normalizeEvent f).tags = []
    ∧ (normalizeEvent f).registration.«open» = true
    ∧ (f.external = none → (normalizeEvent f).external = true) := by
  refine ⟨fun h => jsOrS_of_falsy h _, fun h => jsOrS_of_falsy h _, fun h => jsOrS_of_falsy h _,
    fun h => jsOrS_of_falsy h _, fun h => jsOrS_of_falsy h _, fun h => jsOrS_of_falsy h _,
    fun h => jsOrS_of_falsy h _, rfl, rfl, fun h => ?_⟩
  simp [normalizeEvent, h]

/-- Witness for C1: the all-absent input evaluates to the defaulted event. -/
theorem normalize_total_defaults_witness :
    (normalizeEvent {}).title = "" ∧ (normalizeEvent {}).description = ""
    ∧ (normalizeEvent {}).start = "" ∧ (normalizeEvent {}).«end» = ""
    ∧ (normalizeEvent {}).venue = "" ∧ (normalizeEvent {}).organizer.type = "other"
    ∧ (normalizeEvent {}).source.name = "external" ∧ (normalizeEvent {}).tags = []
    ∧ (normalizeEvent {}).registration.«open» = true ∧ (normalizeEvent {}).external = true := by
  obtain ⟨h1, h2, h3, h4, h5, h6, h7, h8, h9, h10⟩ := normalize_total_defaults {}
  exact ⟨h1 rfl, h2 rfl, h3 rfl, h4 rfl, h5 rfl, h6 rfl, h7 rfl, h8, h9, h10 rfl⟩

/-- C2: `organizer.verified` is `true` iff the supplied `organizerType` is
exactly "government" or exactly "company"; any other value, including the
empty string and an absent field, yields `false`. -/
theorem organizer_verified_iff (f : NormalizeInput) :
    (normalizeEvent f).organizer.verified = true ↔
      (f.organizerType = some "government" ∨ f.organizerType = some "company") := by
  simp [normalizeEvent]

/-- C3: `organizer.name` is the first non-empty value in the chain
organizerName, then sourceName, then the literal "Unknown". -/
theorem organizer_name_chain (f : NormalizeInput) :
    (∀ s, f.organizerName = some s → s ≠ "" → (normalizeEvent f).organizer.name = s)
    ∧ (truthy f.organizerName = false →
        ∀ s, f.sourceName = some s → s ≠ "" → (normalizeEvent f).organizer.name = s)
    ∧ (truthy f.organizerName = false → truthy f.sourceName = false →
        (normalizeEvent f).organizer.name = "Unknown") := by
  have base : (normalizeEvent f).organizer.name
      = jsOrS f.organizerName (jsOrS f.sourceName "Unknown") := rfl
  refine ⟨?_, ?_, ?_⟩
  · intro s hs hne
    rw [base, hs, jsOrS_some_ne hne]
  · intro h s hs hne
    rw [base, jsOrS_of_falsy h, hs, jsOrS_some_ne hne]
  · intro h1 h2
    rw [base, jsOrS_of_falsy h1, jsOrS_of_falsy h2]

/-- Witness for C3: the two instances named by the claim, with an empty
organizerName falling through to sourceName "Foo", and both empty falling
through to "Unknown". -/
theorem organizer_name_chain_witness :
    (normalizeEvent { organizerName := some "", sourceName := some "Foo" }).organizer.name = "Foo"
    ∧ (normalizeEvent { organizerName := some "", sourceName := some "" }).organizer.name
        = "Unknown" := by
  constructor
  · exact (organizer_name_chain
      { organizerName := some "", sourceName := some "Foo" }).2.1 (by decide) "Foo" rfl (by decide)
  · exact (organizer_name_chain
      { organizerName := some "", sourceName := some "" }).2.2 (by decide) (by decide)

/-- C4: every Canonical Event produced by one of the three adapters has a
non-empty id beginning with that adapter's fixed source prefix, so ids from
different sources can never collide. -/
theorem adapter_id_prefixed (ev : EBRecord) (it : GCalItem) (c : ICSComponent) :
    (∃ t, (ebEvent ev).id = some ("eventbrite_" ++ t) ∧ "eventbrite_" ++ t ≠ "")
    ∧ (∃ t, (gcalEvent it).id = some ("gcal_" ++ t) ∧ "gcal_" ++ t ≠ "")
    ∧ (∃ t, (icsEvent c).id = some ("ics_" ++ t) ∧ "ics_" ++ t ≠ "")
    ∧ (ebEvent ev).id ≠ (gcalEvent it).id
    ∧ (ebEvent ev).id ≠ (icsEvent c).id
    ∧ (gcalEvent it).id ≠ (icsEvent c).id := by
  refine ⟨⟨interp ev.id, rfl, append_left_ne_empty rfl _⟩,
    ⟨interp it.id, rfl, append_left_ne_empty rfl _⟩,
    ⟨(jsOrS c.uid (jsOrS c.summary "")).take 40, rfl, append_left_ne_empty rfl _⟩,
    ?_, ?_, ?_⟩
  · intro h
    have h2 : "eventbrite_" ++ interp ev.id = "gcal_" ++ interp it.id := Option.some.inj h
    exact append_head_ne rfl rfl (by decide) _ _ h2
  · intro h
    have h2 : "eventbrite_" ++ interp ev.id
        = "ics_" ++ (jsOrS c.uid (jsOrS c.summary "")).take 40 := Option.some.inj h
    exact append_head_ne rfl rfl (by decide) _ _ h2
  · intro h
    have h2 : "gcal_" ++ interp it.id
        = "ics_" ++ (jsOrS c.uid (jsOrS c.summary "")).take 40 := Option.some.inj h
    exact append_head_ne rfl rfl (by decide) _ _ h2

/-- Witness for C4: at concrete empty records, the Eventbrite id and the
Google Calendar id differ. -/
theorem adapter_id_prefixed_witness :
    (ebEvent {}).id ≠ (gcalEvent {}).id :=
  (adapter_id_prefixed {} {} { type := "VEVENT" }).2.2.2.1

/-- C5: for every Eventbrite raw record, when both the UTC-qualified and the
locally-qualified start (respectively end) timestamps are present, the
normalized start (respectively end) equals the UTC value, and when the UTC
value is absent it equals the local value. Presence of a timestamp is taken
as a non-empty string for the preferred UTC side. -/
theorem eb_timestamp_preference (ev : EBRecord) :
    (∀ t u, ev.start = some t → t.utc = some u → u ≠ "" → (ebEvent ev).start = u)
    ∧ (∀ t l, ev.start = some t → t.utc = none → t.«local» = some l → (ebEvent ev).start = l)
    ∧ (∀ t u, ev.«end» = some t → t.utc = some u → u ≠ "" → (ebEvent ev).«end» = u)
    ∧ (∀ t l, ev.«end» = some t → t.utc = none → t.«local» = some l →
        (ebEvent ev).«end» = l) := by
  have bs : (ebEvent ev).start
      = jsOrS (jsOr (ev.start.bind EBTime.utc) (ev.start.bind fun t => t.«local»)) "" := rfl
  have be : (ebEvent ev).«end»
      = jsOrS (jsOr (ev.«end».bind EBTime.utc) (ev.«end».bind fun t => t.«local»)) "" := rfl
  refine ⟨?_, ?_, ?_, ?_⟩
  · intro t u hst hutc hne
    rw [bs, hst, Option.some_bind, hutc, jsOr_some_ne hne, jsOrS_some_ne hne]
  · intro t l hst hutc hloc
    rw [bs, hst, Option.some_bind, Option.some_bind, hutc, hloc, jsOr_none,
      jsOrS_some_empty_default]
  · intro t u hst hutc hne
    rw [be, hst, Option.some_bind, hutc, jsOr_some_ne hne, jsOrS_some_ne hne]
  · intro t l hst hutc hloc
    rw [be, hst, Option.some_bind, Option.some_bind, hutc, hloc, jsOr_none,
      jsOrS_some_empty_default]

/-- Witness for C5: a record carrying both a UTC and a local start and a
UTC-less end resolves start to UTC and end to local. -/
theorem eb_timestamp_preference_witness :
    (ebEvent { start := some { utc := some "2025-01-01T10:00:00Z", «local» := some "2025-01-01T05:00:00" },
               «end» := some { utc := none, «local» := some "2025-01-01T07:00:00" } }).start
      = "2025-01-01T10:00:00Z"
    ∧ (ebEvent { start := some { utc := some "2025-01-01T10:00:00Z", «local» := some "2025-01-01T05:00:00" },
                 «end» := some { utc := none, «local» := some "2025-01-01T07:00:00" } }).«end»
      = "2025-01-01T07:00:00" := by
  constructor
  · exact (eb_timestamp_preference _).1 _ _ rfl rfl (by decide)
  · exact (eb_timestamp_preference _).2.2.2 _ _ rfl rfl rfl

/-- C8: the canonical id of an ICS component is "ics_" followed by the
first 40 characters of its uid, else its summary, else the empty string;
in particular a long uid contributes exactly its first 40 characters. -/
theorem ics_id_truncation (c : ICSComponent) :
    (∀ u, c.uid = some u → u ≠ "" → (icsEvent c).id = some ("ics_" ++ u.take 40))
    ∧ (truthy c.uid = false → ∀ s, c.summary = some s → s ≠ "" →
        (icsEvent c).id = some ("ics_" ++ s.take 40))
    ∧ (truthy c.uid = false → truthy c.summary = false → (icsEvent c).id = some "ics_") := by
  have base : (icsEvent c).id
      = some ("ics_" ++ (jsOrS c.uid (jsOrS c.summary "")).take 40) := rfl
  refine ⟨?_, ?_, ?_⟩
  · intro u hu hne
    rw [base, hu, jsOrS_some_ne hne]
  · intro h s hs hne
    rw [base, jsOrS_of_falsy h, hs, jsOrS_some_ne hne]
  · intro h1 h2
    rw [base, jsOrS_of_falsy h1, jsOrS_of_falsy h2]
    rfl

/-- Witness for C8: a 43-character uid is truncated to its first 40
characters in the id suffix. -/
theorem ics_id_truncation_witness :
    (icsEvent { type := "VEVENT",
                uid := some "abcdefghijklmnopqrstuvwxyzabcdefghijklmnopq" }).id
      = some "ics_abcdefghijklmnopqrstuvwxyzabcdefghijklmn" := by
  have h := (ics_id_truncation
    { type := "VEVENT", uid := some "abcdefghijklmnopqrstuvwxyzabcdefghijklmnopq" }).1
    "abcdefghijklmnopqrstuvwxyzabcdefghijklmnopq" rfl (by decide)
  rw [h]
  rfl

/-- C9: the ICS endpoint emits one Canonical Event per parsed component of
type VEVENT, in order, and nothing for components of any other type; in
particular one timezone component plus one event component yield exactly
one Canonical Event. -/
theorem ics_only_vevents (parsed : List (Option ICSComponent)) :
    icsEvents parsed
      = ((parsed.filterMap id).filter (fun c => c.type == "VEVENT")).map icsEvent
    ∧ (icsEvents [some { type := "VTIMEZONE" },
                  some { type := "VEVENT", summary := some "Demo" }]).length = 1 := by
  constructor
  · induction parsed with
    | nil => rfl
    | cons hd rest ih =>
      cases hd with
      | none => simpa [icsEvents] using ih
      | some c =>
        by_cases h : c.type = "VEVENT"
        · simp [icsEvents, h, ih]
        · simp [icsEvents, h, ih]
  · rfl

/-- C6: when the calendarId query parameter is absent, the calendar-feed
endpoint answers 400 with body error "calendarId required" and performs no
outbound call, whatever the configuration and whatever the upstream would
have returned. -/
theorem gcal_missing_calendarId (apiKeyEnv : Option String) (upstream : Upstream GCalListJson) :
    googleCalendarHandler apiKeyEnv none upstream
      = ({ status := 400, body := .errObj "calendarId required" }, 0) := rfl

/-- C7: with the EVENTBRITE_TOKEN configuration value unset, the Eventbrite
endpoint answers 500 with body error "Missing EVENTBRITE_TOKEN env var" and
performs no outbound call, whatever the upstream would have returned. -/
theorem eb_missing_token (upstream : Upstream EBSearchJson) :
    eventbriteHandler none upstream
      = ({ status := 500, body := .errObj "Missing EVENTBRITE_TOKEN env var" }, 0) := rfl

/-- C10: with both the calendarId parameter and the GOOGLE_API_KEY
configuration value absent, the calendar-feed endpoint answers the 400
client error, not the 500 configuration error: the missing-parameter check
takes precedence. -/
theorem gcal_param_check_precedence (upstream : Upstream GCalListJson) :
    googleCalendarHandler none none upstream
      = ({ status := 400, body := .errObj "calendarId required" }, 0)
    ∧ (googleCalendarHandler none none upstream).1.status ≠ 500 := by
  refine ⟨rfl, ?_⟩
  intro h
  have h2 : (400 : Nat) = 500 := h
  exact absurd h2 (by decide)

/-- Witness for C10: at a concrete upstream outcome, the doubly-unconfigured
calendar-feed request does not answer 500. -/
theorem gcal_param_check_precedence_witness :
    (googleCalendarHandler none none (Upstream.ok { items := none })).1.status ≠ 500 :=
  (gcal_param_check_precedence (Upstream.ok { items := none })).2

end EventHub
